import Mathlib

/-!
Verification of the connection layer of an HTTP client
(`src/httpcore/connection.py` and `src/httpcore/http11.py`):
the protocol-selecting connection facade (`HTTPConnection`) and the
HTTP/1.1 protocol driver (`HTTP11Connection`).

The driver's effectful operations (wire writes, timed transport reads,
transport close, the pool release hook) are embedded by explicit state
passing: a computation receives the h11 connection state and the sequence
of pending transport reads (each read delivering the h11 events parsed
from the bytes it returned), and produces a result together with the
updated state, the remaining reads, and a trace of observable actions.
Fallible steps return `Except`.
-/

namespace Httpcore

/-- Raw byte payloads (Python `bytes`) as lists of byte values. -/
abbrev Bytes := List Nat

/-- Ordered header list: name/value pairs, duplicates preserved. -/
abbrev Headers := List (String × String)

/-- The h11 event vocabulary used by the driver (the `H11Event` union in
http11.py): request, final response, informational (1xx) response, body
data, end of message, connection closed. -/
inductive H11Event where
  | request (method : String) (target : String) (headers : Headers)
  | response (status_code : Nat) (reason : String) (headers : Headers)
  | informationalResponse (status_code : Nat) (headers : Headers)
  | data (payload : Bytes)
  | endOfMessage
  | connectionClosed
deriving DecidableEq, Repr

/-- Modelled from the spec: the per-role state of the embedded h11 protocol
state machine (the external `h11` library is not part of this repository).
Spec section 3: each role moves through idle, sending-body, done, with
terminal branches must-close, closed, error. -/
inductive MachineState where
  | idle
  | sendBody
  | done
  | mustClose
  | closed
  | error
deriving DecidableEq, Repr

/-- Error kinds surfaced by the driver (spec section 7); `outOfFuel` is an
artifact of the bounded body-drain loop and is proved unreachable for
sufficient fuel (`body_iterF_no_outOfFuel`). -/
inductive Err where
  | protocolError
  | readTimeout
  | assertionError
  | outOfFuel
deriving DecidableEq, Repr

/-- Observable actions of a driver computation: a serialized event written to
the transport, a transport read, a transport close, an h11 cycle reset, and
an invocation of the pool release hook. -/
inductive Action where
  | wireWrite (ev : H11Event)
  | read
  | closeTransport
  | startNextCycle
  | releaseHook
deriving DecidableEq, Repr

/-- The h11 connection state owned by the driver (`self.h11_state`): the
local-role and peer-role state machines, plus the queue of events already
parsed from received bytes and not yet consumed (`next_event` yields from
this queue; an empty queue is h11's NEED_DATA). -/
structure H11ConnState where
  ourState : MachineState
  theirState : MachineState
  eventQueue : List H11Event
deriving DecidableEq, Repr

deriving instance DecidableEq for Except

/-- Outcome of one driver computation: the result (or error), the h11 state,
the remaining pending transport reads, and the trace of observable actions. -/
structure StepResult (α : Type) where
  result : Except Err α
  conn : H11ConnState
  reads : List (List H11Event)
  trace : List Action
deriving DecidableEq, Repr

/-- A driver computation: explicit passing of the h11 connection state and
the pending transport reads, accumulating a trace of observable actions. -/
abbrev DriverM (α : Type) : Type :=
  H11ConnState → List (List H11Event) → StepResult α

/-- Pure computation: no state change, no actions. -/
def dpure {α : Type} (a : α) : DriverM α := fun conn reads =>
  ⟨.ok a, conn, reads, []⟩

/-- Sequencing of driver computations: an error in the first step aborts the
second, the traces concatenate in order. -/
def dbind {α β : Type} (m : DriverM α) (k : α → DriverM β) : DriverM β :=
  fun conn reads =>
    let s := m conn reads
    match s.result with
    | .error e => ⟨.error e, s.conn, s.reads, s.trace⟩
    | .ok a =>
      let s2 := k a s.conn s.reads
      ⟨s2.result, s2.conn, s2.reads, s.trace ++ s2.trace⟩

/-- Modelled from the spec: legality and effect of sending an event through
the h11 state machine (`h11.Connection.send`, external library). A request
start is legal only in idle (moving to sending-body); data only while
sending the body; end-of-message completes the body (done); connection
closed is legal from idle, done, must-close and closed (moving to closed).
Anything else is a protocol error ("no writing after completion"), which
leaves the machine in the error state. -/
def sendTransition : MachineState → H11Event → Option MachineState
  | .idle, .request _ _ _ => some .sendBody
  | .sendBody, .data _ => some .sendBody
  | .sendBody, .endOfMessage => some .done
  | .idle, .connectionClosed => some .closed
  | .done, .connectionClosed => some .closed
  | .mustClose, .connectionClosed => some .closed
  | .closed, .connectionClosed => some .closed
  | _, _ => none

/-- Modelled from the spec: effect on the peer-role state machine of the
driver consuming a received event (`h11.Connection.next_event`, external
library): a final response starts the peer body (sending-body), end of
message completes it (done), a connection-closed event closes it;
informational responses and data leave the peer state unchanged. -/
def consumeUpdate (ev : H11Event) (conn : H11ConnState) : H11ConnState :=
  match ev with
  | .response _ _ _ => { conn with theirState := .sendBody }
  | .endOfMessage => { conn with theirState := .done }
  | .connectionClosed => { conn with theirState := .closed }
  | _ => conn

/-- Modelled from the spec: h11's `start_next_cycle`, resetting both role
state machines to idle for keep-alive reuse; the driver invokes it only when
both roles are done. -/
def start_next_cycle (conn : H11ConnState) : H11ConnState :=
  { conn with ourState := .idle, theirState := .idle }

/-- `Request` model (models.py is summarized by the spec): method, target
path, header list, and the body source as a sequence of byte chunks. -/
structure Request where
  method : String
  target : String
  headers : Headers
  body : List Bytes
deriving DecidableEq, Repr

/-- Modelled from the spec: the `Response` model (models.py is not in src/):
status code, reason text, protocol label, header list, and the body —
`some chunks` once buffered by `read()`, `none` while body pulls are
deferred to the caller (streaming). -/
structure Response where
  status_code : Nat
  reason : String
  protocol : String
  headers : Headers
  body : Option (List Bytes)
deriving DecidableEq, Repr

namespace HTTP11Connection

/-- `HTTP11Connection._send_event` (http11.py lines 114-116): serialize the
event through the h11 state machine and write the bytes to the transport; an
illegal event is a protocol error and leaves the machine in the error
state. -/
def send_event (ev : H11Event) : DriverM Unit := fun conn reads =>
  match sendTransition conn.ourState ev with
  | some s => ⟨.ok (), { conn with ourState := s }, reads, [Action.wireWrite ev]⟩
  | none => ⟨.error .protocolError, { conn with ourState := .error }, reads, []⟩

/-- `HTTP11Connection._receive_event` (http11.py lines 118-126): ask the h11
state machine for the next event; while it reports NEED_DATA (empty event
queue), read from the transport and feed the bytes in; a read with no
pending data fails with a read timeout. -/
def receive_event : H11ConnState → List (List H11Event) → StepResult H11Event
  | conn, reads =>
    match conn.eventQueue with
    | ev :: rest =>
      ⟨.ok ev, consumeUpdate ev { conn with eventQueue := rest }, reads, []⟩
    | [] =>
      match reads with
      | [] => ⟨.error .readTimeout, conn, [], []⟩
      | blob :: restReads =>
        let r := receive_event { conn with eventQueue := blob } restReads
        ⟨r.result, r.conn, r.reads, Action.read :: r.trace⟩

/-- Size of the pending input: events already parsed plus events and read
boundaries still to arrive. Bounds the body-drain loop. -/
def readsMeasure (reads : List (List H11Event)) : Nat :=
  reads.foldr (fun blob acc => blob.length + 1 + acc) 0

/-- Total measure of the input still available to the driver. -/
def envMeasure (conn : H11ConnState) (reads : List (List H11Event)) : Nat :=
  conn.eventQueue.length + readsMeasure reads

/-- Fuel-bounded core of `HTTP11Connection._body_iter` (http11.py lines
107-113): receive events, yielding data payloads, until end of message; any
other event type fails the assertion. Each iteration consumes at least one
pending event, so `envMeasure` bounds the recursion (see
`body_iterF_no_outOfFuel`). -/
def body_iterF : Nat → H11ConnState → List (List H11Event) → StepResult (List Bytes)
  | 0, conn, reads => ⟨.error .outOfFuel, conn, reads, []⟩
  | fuel + 1, conn, reads =>
    let r := receive_event conn reads
    match r.result with
    | .error e => ⟨.error e, r.conn, r.reads, r.trace⟩
    | .ok ev =>
      match ev with
      | .data payload =>
        let r2 := body_iterF fuel r.conn r.reads
        ⟨r2.result.map fun rest => payload :: rest, r2.conn, r2.reads,
          r.trace ++ r2.trace⟩
      | .endOfMessage => ⟨.ok [], r.conn, r.reads, r.trace⟩
      | _ => ⟨.error .assertionError, r.conn, r.reads, r.trace⟩

/-- `HTTP11Connection._body_iter`: the drain loop run with sufficient fuel. -/
def body_iter (conn : H11ConnState) (reads : List (List H11Event)) :
    StepResult (List Bytes) :=
  body_iterF (envMeasure conn reads + 1) conn reads

/-- `HTTP11Connection.close` (http11.py lines 95-105): emit a
connection-closed event into the h11 state machine, suppressing a protocol
error (a premature close leaves the machine in the error state), then
unconditionally close the transport. -/
def close (conn : H11ConnState) : H11ConnState × List Action :=
  let conn' :=
    match sendTransition conn.ourState .connectionClosed with
    | some s => { conn with ourState := s }
    | none => { conn with ourState := .error }
  (conn', [Action.closeTransport])

/-- `HTTP11Connection.response_closed` (http11.py lines 128-138): if both
role state machines are done, start the next keep-alive cycle; otherwise
close the connection; in both branches, invoke the release hook afterwards
when one was supplied. -/
def response_closed (hasRelease : Bool) (conn : H11ConnState) :
    H11ConnState × List Action :=
  let step :=
    if conn.ourState = .done ∧ conn.theirState = .done then
      (start_next_cycle conn, [Action.startNextCycle])
    else
      close conn
  (step.1, step.2 ++ if hasRelease then [Action.releaseHook] else [])

/-- `HTTP11Connection.is_closed` (http11.py lines 140-142): the local-role
state machine is in a terminal closed or error state. -/
def is_closed (conn : H11ConnState) : Bool :=
  conn.ourState == MachineState.closed || conn.ourState == MachineState.error

/-- The request-body write loop of `HTTP11Connection.send` (http11.py lines
58-61): one data event per body chunk, each written before the next. -/
def sendChunks : List Bytes → DriverM Unit
  | [] => dpure ()
  | chunk :: rest => dbind (send_event (.data chunk)) fun _ => sendChunks rest

/-- The write half of `HTTP11Connection.send` (http11.py lines 51-65):
request start event, one data event per body chunk, end-of-message event. -/
def sendRequestPhase (request : Request) : DriverM Unit :=
  dbind (send_event (.request request.method request.target request.headers))
    fun _ =>
  dbind (sendChunks request.body) fun _ =>
  send_event .endOfMessage

/-- Whether an event is an informational (1xx interim) response. -/
def isInformational : H11Event → Bool
  | .informationalResponse _ _ => true
  | _ => false

/-- http11.py lines 67-70: receive one event; if it is an informational
response, receive exactly one more (an `if`, not a loop). -/
def receiveResponsePhase : DriverM H11Event :=
  dbind (fun conn reads => receive_event conn reads) fun ev =>
  if isInformational ev then
    fun conn reads => receive_event conn reads
  else
    dpure ev

/-- http11.py line 72: `assert isinstance(event, h11.Response)`; yields the
final status, reason and headers, failing the assertion on any other
event. -/
def assertResponse (ev : H11Event) : DriverM (Nat × String × Headers) :=
  fun conn reads =>
    match ev with
    | .response s r h => ⟨.ok (s, r, h), conn, reads, []⟩
    | _ => ⟨.error .assertionError, conn, reads, []⟩

/-- The header half of `HTTP11Connection.send` (http11.py lines 51-85):
write the request, read up to one informational response plus the final
response, and construct the Response with its body pull still deferred. -/
def headerPhase (request : Request) : DriverM Response :=
  dbind (sendRequestPhase request) fun _ =>
  dbind receiveResponsePhase fun ev =>
  dbind (assertResponse ev) fun hdr =>
  dpure ⟨hdr.1, hdr.2.1, "HTTP/1.1", hdr.2.2, none⟩

/-- Modelled from the spec: the buffered completion of `HTTP11Connection.send`
(http11.py lines 87-92, `try: await response.read() finally: await
response.close()`, with `Response.read` and `Response.close` of models.py —
not in src/ — modelled from spec sections 3 and 4.2: read drains the lazy
body fully, close invokes the on_close hook, here `response_closed`, exactly
once). The body is drained, then `response_closed` runs whether or not the
drain failed, and a drain error then propagates to the caller. -/
def finishBuffered (hasRelease : Bool) (resp : Response) : DriverM Response :=
  fun conn reads =>
    let r := body_iter conn reads
    match r.result with
    | .ok chunks =>
      let c := response_closed hasRelease r.conn
      ⟨.ok { resp with body := some chunks }, c.1, r.reads, r.trace ++ c.2⟩
    | .error e =>
      let c := response_closed hasRelease r.conn
      ⟨.error e, c.1, r.reads, r.trace ++ c.2⟩

/-- `HTTP11Connection.send` (http11.py lines 46-93): write the request, read
the response headers, then either return the streaming response (body pulls
deferred) or eagerly drain and close it. -/
def send (request : Request) (stream : Bool) (hasRelease : Bool) :
    DriverM Response :=
  dbind (headerPhase request) fun resp =>
  if stream then dpure resp else finishBuffered hasRelease resp

end HTTP11Connection

/-- Modelled from the spec: the multiplexed (HTTP/2) driver's state
(http2.py is not in src/; the spec treats the driver as an external
collaborator specified only via its send/close contract): we track only its
terminal-state query. -/
structure H2ConnState where
  is_closed : Bool
deriving DecidableEq, Repr

namespace HTTP2Connection

/-- Modelled from the spec: the multiplexed driver's `close()` contract
(http2.py is not in src/): closes its transport and becomes closed. -/
def close (h2 : H2ConnState) : H2ConnState × List Action :=
  ({ h2 with is_closed := true }, [Action.closeTransport])

end HTTP2Connection

/-- The connection facade (`HTTPConnection` in connection.py): per-origin
state plus at most one bound driver; `none`/`none` is the unconnected
state. -/
structure HTTPConnection where
  origin : String
  hasReleaseFunc : Bool
  h11_connection : Option H11ConnState
  h2_connection : Option H2ConnState
deriving DecidableEq, Repr

namespace HTTPConnection

/-- `HTTPConnection.close` (connection.py lines 72-76): delegate to the
bound driver (HTTP/2 checked first), a no-op when unconnected. -/
def close (c : HTTPConnection) : HTTPConnection × List Action :=
  match c.h2_connection with
  | some h2 =>
    let r := HTTP2Connection.close h2
    ({ c with h2_connection := some r.1 }, r.2)
  | none =>
    match c.h11_connection with
    | some st =>
      let r := HTTP11Connection.close st
      ({ c with h11_connection := some r.1 }, r.2)
    | none => (c, [])

/-- `HTTPConnection.is_closed` (connection.py lines 82-88): delegate to the
bound driver; when unconnected, the `assert self.h11_connection is not None`
fails. -/
def is_closed (c : HTTPConnection) : Except Err Bool :=
  match c.h2_connection with
  | some h2 => .ok h2.is_closed
  | none =>
    match c.h11_connection with
    | some st => .ok (HTTP11Connection.is_closed st)
    | none => .error .assertionError

end HTTPConnection

/-! Helper lemmas about the sequencing combinator and the driver phases. -/

/-- Sequencing after a successful first step runs the continuation on the
updated state and concatenates the traces. -/
theorem dbind_ok {α β : Type} {m : DriverM α} {k : α → DriverM β}
    {conn : H11ConnState} {reads : List (List H11Event)} {a : α}
    {c' : H11ConnState} {r' : List (List H11Event)} {t : List Action}
    (h : m conn reads = ⟨.ok a, c', r', t⟩) :
    dbind m k conn reads =
      ⟨(k a c' r').result, (k a c' r').conn, (k a c' r').reads,
        t ++ (k a c' r').trace⟩ := by
  simp [dbind, h]

/-- Sequencing after a failed first step propagates the failure unchanged. -/
theorem dbind_error {α β : Type} {m : DriverM α} {k : α → DriverM β}
    {conn : H11ConnState} {reads : List (List H11Event)} {e : Err}
    {c' : H11ConnState} {r' : List (List H11Event)} {t : List Action}
    (h : m conn reads = ⟨.error e, c', r', t⟩) :
    dbind m k conn reads = ⟨.error e, c', r', t⟩ := by
  simp [dbind, h]

/-- The trace of a sequenced computation extends the trace of its first
step. -/
theorem dbind_trace {α β : Type} (m : DriverM α) (k : α → DriverM β)
    (conn : H11ConnState) (reads : List (List H11Event)) :
    ∃ t, (dbind m k conn reads).trace = (m conn reads).trace ++ t := by
  rcases hres : (m conn reads).result with e | a
  · exact ⟨[], by simp [dbind, hres]⟩
  · exact ⟨(k a (m conn reads).conn (m conn reads).reads).trace,
      by simp [dbind, hres]⟩

/-- Writing back the value a field already holds leaves the state
unchanged. -/
theorem set_ourState_eq {conn : H11ConnState} {s : MachineState}
    (h : conn.ourState = s) : ({ conn with ourState := s }) = conn := by
  cases conn
  cases h
  rfl

namespace HTTP11Connection

/-- The body write loop succeeds from the sending-body state, stays there,
and writes exactly one data event per chunk, in order. -/
theorem sendChunks_ok (chunks : List Bytes) (conn : H11ConnState)
    (reads : List (List H11Event)) (h : conn.ourState = .sendBody) :
    sendChunks chunks conn reads =
      ⟨.ok (), conn, reads,
        chunks.map fun chunk => Action.wireWrite (.data chunk)⟩ := by
  induction chunks generalizing conn with
  | nil => simp [sendChunks, dpure]
  | cons chunk rest ih =>
    have hse : send_event (.data chunk) conn reads =
        ⟨.ok (), conn, reads, [Action.wireWrite (.data chunk)]⟩ := by
      simp [send_event, h, sendTransition, set_ourState_eq h]
    rw [sendChunks, dbind_ok hse, ih conn h]
    simp

/-- The write half of `send` from the idle state: request start, body chunks
in order, end of message; the local role ends in done. -/
theorem sendRequestPhase_ok (request : Request) (conn : H11ConnState)
    (reads : List (List H11Event)) (h : conn.ourState = .idle) :
    sendRequestPhase request conn reads =
      ⟨.ok (), { conn with ourState := .done }, reads,
        Action.wireWrite (.request request.method request.target request.headers)
          :: ((request.body.map fun chunk => Action.wireWrite (.data chunk))
            ++ [Action.wireWrite .endOfMessage])⟩ := by
  obtain ⟨o, ts, q⟩ := conn
  have ho : o = .idle := h
  subst ho
  have h1 : send_event
      (.request request.method request.target request.headers)
      (⟨.idle, ts, q⟩ : H11ConnState) reads =
      ⟨.ok (), ⟨.sendBody, ts, q⟩, reads,
        [Action.wireWrite
          (.request request.method request.target request.headers)]⟩ := by
    simp [send_event, sendTransition]
  have h2 := sendChunks_ok request.body (⟨.sendBody, ts, q⟩ : H11ConnState)
    reads rfl
  have h3 : send_event .endOfMessage (⟨.sendBody, ts, q⟩ : H11ConnState)
      reads =
      ⟨.ok (), ⟨.done, ts, q⟩, reads, [Action.wireWrite .endOfMessage]⟩ := by
    simp [send_event, sendTransition]
  rw [sendRequestPhase, dbind_ok h1, dbind_ok h2, h3]
  simp

/-- The response constructed by the header phase always has its body pull
still deferred. -/
theorem headerPhase_body_none (request : Request) (conn : H11ConnState)
    (reads : List (List H11Event)) (resp : Response)
    (h : (headerPhase request conn reads).result = .ok resp) :
    resp.body = none := by
  simp only [headerPhase, dbind, dpure, assertResponse] at h
  repeat' split at h
  all_goals first
    | (cases h; rfl)
    | simp_all

/-! Trace purity: no phase of `send` before the response is closed ever
invokes the release hook. -/

/-- Sequencing preserves absence of the release hook. -/
theorem dbind_noHook {α β : Type} {m : DriverM α} {k : α → DriverM β}
    {conn : H11ConnState} {reads : List (List H11Event)}
    (hm : Action.releaseHook ∉ (m conn reads).trace)
    (hk : ∀ a c r, Action.releaseHook ∉ (k a c r).trace) :
    Action.releaseHook ∉ (dbind m k conn reads).trace := by
  simp only [dbind]
  rcases hres : (m conn reads).result with e | a
  · simpa [hres] using hm
  · simp only [hres, List.mem_append]
    push_neg
    exact ⟨hm, hk _ _ _⟩

/-- A wire write never invokes the release hook. -/
theorem send_event_noHook (ev : H11Event) (conn : H11ConnState)
    (reads : List (List H11Event)) :
    Action.releaseHook ∉ (send_event ev conn reads).trace := by
  simp only [send_event]
  split <;> simp

/-- Every action of `_receive_event` is a transport read. -/
theorem receive_event_trace (conn : H11ConnState)
    (reads : List (List H11Event)) :
    ∀ a ∈ (receive_event conn reads).trace, a = Action.read := by
  induction reads generalizing conn with
  | nil =>
    obtain ⟨o, ts, q⟩ := conn
    rcases q with _ | ⟨ev, rest⟩ <;> simp [receive_event]
  | cons blob restReads ih =>
    obtain ⟨o, ts, q⟩ := conn
    rcases q with _ | ⟨ev, rest⟩
    · intro a ha
      simp only [receive_event] at ha
      rcases List.mem_cons.mp ha with h | h
      · exact h
      · exact ih _ a h
    · simp [receive_event]

/-- Every action of the bounded body-drain loop is a transport read. -/
theorem body_iterF_trace (fuel : Nat) :
    ∀ (conn : H11ConnState) (reads : List (List H11Event)),
      ∀ a ∈ (body_iterF fuel conn reads).trace, a = Action.read := by
  induction fuel with
  | zero => simp [body_iterF]
  | succ n ih =>
    intro conn reads a ha
    simp only [body_iterF] at ha
    split at ha
    · exact receive_event_trace conn reads a ha
    · split at ha
      · rcases List.mem_append.mp ha with h | h
        · exact receive_event_trace conn reads a h
        · exact ih _ _ a h
      · exact receive_event_trace conn reads a ha
      · exact receive_event_trace conn reads a ha

/-- Every action of `_body_iter` is a transport read; in particular it never
invokes the release hook. -/
theorem body_iter_noHook (conn : H11ConnState)
    (reads : List (List H11Event)) :
    Action.releaseHook ∉ (body_iter conn reads).trace := by
  intro hmem
  have := body_iterF_trace (envMeasure conn reads + 1) conn reads
    Action.releaseHook hmem
  simp at this

/-- The body write loop never invokes the release hook. -/
theorem sendChunks_noHook (chunks : List Bytes) (conn : H11ConnState)
    (reads : List (List H11Event)) :
    Action.releaseHook ∉ (sendChunks chunks conn reads).trace := by
  induction chunks generalizing conn reads with
  | nil => simp [sendChunks, dpure]
  | cons chunk rest ih =>
    exact dbind_noHook (send_event_noHook _ _ _) fun a c r => ih c r

/-- The header half of `send` never invokes the release hook. -/
theorem headerPhase_noHook (request : Request) (conn : H11ConnState)
    (reads : List (List H11Event)) :
    Action.releaseHook ∉ (headerPhase request conn reads).trace := by
  refine dbind_noHook (dbind_noHook (send_event_noHook _ _ _)
    fun a c r => dbind_noHook (sendChunks_noHook _ _ _)
      fun a' c' r' => send_event_noHook _ _ _) fun a c r => ?_
  refine dbind_noHook ?_ fun ev c' r' => ?_
  · refine dbind_noHook ?_ fun ev2 c2 r2 => ?_
    · intro hmem
      have := receive_event_trace c r _ hmem
      simp at this
    · split
      · intro hmem
        have := receive_event_trace c2 r2 _ hmem
        simp at this
      · simp [dpure]
  · refine dbind_noHook ?_ fun hdr c2 r2 => by simp [dpure]
    cases ev <;> simp [assertResponse]

/-- The decision actions of `response_closed` precede the single release-hook
invocation. -/
theorem response_closed_hook (conn : H11ConnState) :
    ∃ d, (response_closed true conn).2 = d ++ [Action.releaseHook] ∧
      Action.releaseHook ∉ d := by
  simp only [response_closed]
  by_cases hc : conn.ourState = .done ∧ conn.theirState = .done
  · exact ⟨[Action.startNextCycle], by simp [hc], by simp⟩
  · exact ⟨[Action.closeTransport], by simp [hc, close], by simp⟩

/-! Fuel sufficiency: the bounded body-drain loop never exhausts its fuel
when run with more fuel than the measure of the pending input, so
`body_iter` (which supplies `envMeasure + 1`) is the unbounded source
loop. -/

/-- Consuming an event updates only the peer-role state, never the queue. -/
theorem consumeUpdate_queue (ev : H11Event) (conn : H11ConnState) :
    (consumeUpdate ev conn).eventQueue = conn.eventQueue := by
  cases ev <;> rfl

/-- A successful `_receive_event` strictly decreases the pending-input
measure. -/
theorem receive_event_measure (reads : List (List H11Event)) :
    ∀ (conn : H11ConnState) (ev : H11Event),
      (receive_event conn reads).result = .ok ev →
      envMeasure (receive_event conn reads).conn
          (receive_event conn reads).reads
        < envMeasure conn reads := by
  induction reads with
  | nil =>
    intro conn ev h
    obtain ⟨o, ts, q⟩ := conn
    rcases q with _ | ⟨e0, rest⟩
    · simp [receive_event] at h
    · simp [receive_event, envMeasure, readsMeasure, consumeUpdate_queue]
  | cons blob restReads ih =>
    intro conn ev h
    obtain ⟨o, ts, q⟩ := conn
    rcases q with _ | ⟨e0, rest⟩
    · simp only [receive_event] at h ⊢
      have hlt := ih ⟨o, ts, blob⟩ ev h
      simp only [envMeasure, readsMeasure, List.foldr_cons,
        List.length_nil, List.length_cons] at hlt ⊢
      omega
    · simp [receive_event, envMeasure, readsMeasure, consumeUpdate_queue]

/-- The only error `_receive_event` can produce is a read timeout. -/
theorem receive_event_error_eq (reads : List (List H11Event)) :
    ∀ (conn : H11ConnState) (e : Err),
      (receive_event conn reads).result = .error e → e = .readTimeout := by
  induction reads with
  | nil =>
    intro conn e h
    obtain ⟨o, ts, q⟩ := conn
    rcases q with _ | ⟨e0, rest⟩ <;> simp_all [receive_event]
  | cons blob restReads ih =>
    intro conn e h
    obtain ⟨o, ts, q⟩ := conn
    rcases q with _ | ⟨e0, rest⟩
    · simp only [receive_event] at h
      exact ih ⟨o, ts, blob⟩ e h
    · simp [receive_event] at h

/-- With fuel exceeding the pending-input measure, the bounded drain loop
never runs out of fuel: its behavior is that of the unbounded loop. -/
theorem body_iterF_no_outOfFuel :
    ∀ (fuel : Nat) (conn : H11ConnState) (reads : List (List H11Event)),
      envMeasure conn reads < fuel →
      (body_iterF fuel conn reads).result ≠ .error .outOfFuel := by
  intro fuel
  induction fuel with
  | zero => intro conn reads h; exact absurd h (Nat.not_lt_zero _)
  | succ n ih =>
    intro conn reads h
    simp only [body_iterF]
    rcases hres : (receive_event conn reads).result with e | ev
    · have he := receive_event_error_eq reads conn e hres
      subst he
      simp [hres]
    · have hm := receive_event_measure reads conn ev hres
      have hn : envMeasure (receive_event conn reads).conn
          (receive_event conn reads).reads < n := by omega
      cases ev with
      | data payload =>
        have hinner := ih (receive_event conn reads).conn
          (receive_event conn reads).reads hn
        rcases hres2 : (body_iterF n (receive_event conn reads).conn
            (receive_event conn reads).reads).result with e2 | v2
        · rw [hres2] at hinner
          simp [hres, hres2, Except.map]
          intro hcontr
          exact hinner (by rw [hcontr])
        · simp [hres, hres2, Except.map]
      | endOfMessage => simp [hres]
      | request method target headers => simp [hres]
      | response s r hs => simp [hres]
      | informationalResponse s hs => simp [hres]
      | connectionClosed => simp [hres]

/-! Shared unfoldings of `send`: the streaming return and the two buffered
completions. -/

/-- With the streaming option, `send` returns the header-phase response with
its body pull deferred and takes no further action. -/
theorem send_streaming (request : Request) (hasRelease : Bool)
    (conn : H11ConnState) (reads : List (List H11Event))
    (resp0 : Response) (c2 : H11ConnState) (r2 : List (List H11Event))
    (tr2 : List Action)
    (hhdr : headerPhase request conn reads = ⟨.ok resp0, c2, r2, tr2⟩) :
    send request true hasRelease conn reads =
      ⟨.ok resp0, c2, r2, tr2 ++ []⟩ := by
  rw [send, dbind_ok hhdr]
  simp [dpure]

/-- With the buffered option and a successful drain, `send` returns the
fully-buffered body and has closed the response (reuse-or-close decision and
release hook) before returning. -/
theorem send_buffered_ok (request : Request) (hasRelease : Bool)
    (conn : H11ConnState) (reads : List (List H11Event))
    (resp0 : Response) (c2 : H11ConnState) (r2 : List (List H11Event))
    (tr2 : List Action) (chunks : List Bytes) (c3 : H11ConnState)
    (r3 : List (List H11Event)) (tr3 : List Action)
    (hhdr : headerPhase request conn reads = ⟨.ok resp0, c2, r2, tr2⟩)
    (hbody : body_iter c2 r2 = ⟨.ok chunks, c3, r3, tr3⟩) :
    send request false hasRelease conn reads =
      ⟨.ok { resp0 with body := some chunks },
        (response_closed hasRelease c3).1, r3,
        tr2 ++ (tr3 ++ (response_closed hasRelease c3).2)⟩ := by
  rw [send, dbind_ok hhdr]
  simp [finishBuffered, hbody]

/-- With the buffered option and a failing drain, `send` still closes the
response (reuse-or-close decision and release hook) and then propagates the
drain error to the caller. -/
theorem send_buffered_error (request : Request) (hasRelease : Bool)
    (conn : H11ConnState) (reads : List (List H11Event))
    (resp0 : Response) (c2 : H11ConnState) (r2 : List (List H11Event))
    (tr2 : List Action) (e : Err) (c3 : H11ConnState)
    (r3 : List (List H11Event)) (tr3 : List Action)
    (hhdr : headerPhase request conn reads = ⟨.ok resp0, c2, r2, tr2⟩)
    (hbody : body_iter c2 r2 = ⟨.error e, c3, r3, tr3⟩) :
    send request false hasRelease conn reads =
      ⟨.error e, (response_closed hasRelease c3).1, r3,
        tr2 ++ (tr3 ++ (response_closed hasRelease c3).2)⟩ := by
  rw [send, dbind_ok hhdr]
  simp [finishBuffered, hbody]

/-! Claim theorems about the HTTP/1.1 driver. -/

/-- C3: every invocation of `HTTP11Connection.response_closed` resets both
role state machines to idle when both are done (keep-alive reuse) and
otherwise invokes `close()`; in both branches, when a release hook was
supplied it is invoked exactly once, after the reuse/close decision, and
never when no hook was supplied. -/
theorem c3_response_closed_spec (conn : H11ConnState) (hasRelease : Bool) :
    ((conn.ourState = .done ∧ conn.theirState = .done) →
      (response_closed hasRelease conn).1.ourState = .idle ∧
      (response_closed hasRelease conn).1.theirState = .idle ∧
      (response_closed hasRelease conn).2 =
        [Action.startNextCycle]
          ++ (if hasRelease then [Action.releaseHook] else [])) ∧
    (¬(conn.ourState = .done ∧ conn.theirState = .done) →
      (response_closed hasRelease conn).1 = (close conn).1 ∧
      (response_closed hasRelease conn).2 =
        [Action.closeTransport]
          ++ (if hasRelease then [Action.releaseHook] else [])) ∧
    (hasRelease = true →
      ∃ pre, (response_closed hasRelease conn).2 = pre ++ [Action.releaseHook] ∧
        Action.releaseHook ∉ pre) ∧
    (hasRelease = false →
      Action.releaseHook ∉ (response_closed hasRelease conn).2) := by
  refine ⟨?_, ?_, ?_, ?_⟩
  · intro hc
    simp [response_closed, hc.1, hc.2, start_next_cycle]
  · intro hc
    simp [response_closed, hc, close]
  · rintro rfl
    exact response_closed_hook conn
  · rintro rfl
    by_cases hc : conn.ourState = .done ∧ conn.theirState = .done <;>
      simp [response_closed, hc, close]

/-- Witness for C3: a done/done state with a hook cycles to idle/idle and
fires the hook after the decision; a non-done state without a hook closes. -/
theorem c3_response_closed_witness :
    ((response_closed true ⟨.done, .done, []⟩).1.ourState = MachineState.idle ∧
      (response_closed true ⟨.done, .done, []⟩).1.theirState =
        MachineState.idle ∧
      (response_closed true ⟨.done, .done, []⟩).2 =
        [Action.startNextCycle]
          ++ (if true then [Action.releaseHook] else [])) ∧
    ((response_closed false ⟨.done, .idle, []⟩).1 =
        (close ⟨.done, .idle, []⟩).1 ∧
      (response_closed false ⟨.done, .idle, []⟩).2 =
        [Action.closeTransport]
          ++ (if false then [Action.releaseHook] else [])) :=
  ⟨(c3_response_closed_spec ⟨.done, .done, []⟩ true).1 (by decide),
    (c3_response_closed_spec ⟨.done, .idle, []⟩ false).2.1 (by decide)⟩

/-- C4: once the local-role state machine has been forced to must-close, a
subsequent `send` on the same driver fails with a protocol error rather than
reusing the connection. -/
theorem c4_must_close_send_fails (conn : H11ConnState)
    (reads : List (List H11Event)) (request : Request)
    (stream hasRelease : Bool) (h : conn.ourState = .mustClose) :
    (send request stream hasRelease conn reads).result =
      .error .protocolError := by
  obtain ⟨o, ts, q⟩ := conn
  have ho : o = .mustClose := h
  subst ho
  simp [send, headerPhase, sendRequestPhase, send_event, sendTransition, dbind]

/-- Witness for C4: a concrete must-close driver rejects a new request. -/
theorem c4_must_close_send_fails_witness :
    (send ⟨"GET", "/", [], []⟩ false false ⟨.mustClose, .idle, []⟩ []).result
      = .error Err.protocolError :=
  c4_must_close_send_fails ⟨.mustClose, .idle, []⟩ [] ⟨"GET", "/", [], []⟩
    false false rfl

/-- C6: `HTTP11Connection.close` suppresses a protocol error from emitting
the connection-closed event (leaving the machine in the error state), closes
the transport unconditionally, touches nothing else, and a second close is a
no-op with the same outcome. -/
theorem c6_close_suppress_idempotent (conn : H11ConnState) :
    (close conn).2 = [Action.closeTransport] ∧
    (sendTransition conn.ourState .connectionClosed = none →
      (close conn).1.ourState = .error) ∧
    (close conn).1.theirState = conn.theirState ∧
    (close conn).1.eventQueue = conn.eventQueue ∧
    close (close conn).1 = ((close conn).1, [Action.closeTransport]) := by
  obtain ⟨o, ts, q⟩ := conn
  cases o <;> simp [close, sendTransition]

/-- Witness for C6: closing mid-body (an illegal connection-closed event) is
suppressed, leaving the error state with the transport closed, and a second
close changes nothing. -/
theorem c6_close_witness :
    (close ⟨.sendBody, .idle, []⟩).1.ourState = MachineState.error :=
  (c6_close_suppress_idempotent ⟨.sendBody, .idle, []⟩).2.1 rfl

/-- C7: from the idle state, `send` emits exactly one request-start event,
then one data event per body chunk in order, then one end-of-message event,
each written to the transport before the next is emitted, before any other
action. -/
theorem c7_request_write_order (conn : H11ConnState)
    (reads : List (List H11Event)) (request : Request)
    (stream hasRelease : Bool) (h : conn.ourState = .idle) :
    ∃ rest, (send request stream hasRelease conn reads).trace =
      Action.wireWrite (.request request.method request.target request.headers)
        :: ((request.body.map fun chunk => Action.wireWrite (.data chunk))
          ++ ([Action.wireWrite .endOfMessage] ++ rest)) := by
  have hphase := sendRequestPhase_ok request conn reads h
  obtain ⟨t1, ht1⟩ := dbind_trace (sendRequestPhase request)
    (fun _ => dbind receiveResponsePhase fun ev =>
      dbind (assertResponse ev) fun hdr =>
      dpure (⟨hdr.1, hdr.2.1, "HTTP/1.1", hdr.2.2, none⟩ : Response))
    conn reads
  obtain ⟨t2, ht2⟩ := dbind_trace (headerPhase request)
    (fun resp => if stream then dpure resp else finishBuffered hasRelease resp)
    conn reads
  refine ⟨t1 ++ t2, ?_⟩
  have hsend : (send request stream hasRelease conn reads).trace
      = (headerPhase request conn reads).trace ++ t2 := ht2
  have hhp : (headerPhase request conn reads).trace
      = (sendRequestPhase request conn reads).trace ++ t1 := ht1
  rw [hsend, hhp, hphase]
  simp

/-- Witness for C7: a two-chunk request writes start, the chunks in order,
then end of message. -/
theorem c7_request_write_order_witness :
    ∃ rest, (send ⟨"POST", "/upload", [], [[1], [2]]⟩ false false
        ⟨.idle, .idle, []⟩ []).trace =
      Action.wireWrite (.request "POST" "/upload" [])
        :: ((([[1], [2]] : List Bytes).map fun chunk =>
              Action.wireWrite (.data chunk))
          ++ ([Action.wireWrite .endOfMessage] ++ rest)) :=
  c7_request_write_order ⟨.idle, .idle, []⟩ []
    ⟨"POST", "/upload", [], [[1], [2]]⟩ false false rfl

/-- C8: `_receive_event` yields the next event — including end-of-message —
without a transport read whenever the state machine can already produce one
from previously received bytes, and issues a read only when it reports
NEED_DATA (an empty parsed-event queue). -/
theorem c8_receive_no_read_when_ready (conn : H11ConnState)
    (reads : List (List H11Event)) :
    (∀ ev rest, conn.eventQueue = ev :: rest →
      receive_event conn reads =
        ⟨.ok ev, consumeUpdate ev { conn with eventQueue := rest },
          reads, []⟩) ∧
    (Action.read ∈ (receive_event conn reads).trace →
      conn.eventQueue = []) := by
  have h1 : ∀ ev rest, conn.eventQueue = ev :: rest →
      receive_event conn reads =
        ⟨.ok ev, consumeUpdate ev { conn with eventQueue := rest },
          reads, []⟩ := by
    intro ev rest hq
    obtain ⟨o, ts, q⟩ := conn
    simp only at hq
    subst hq
    rcases reads with _ | ⟨blob, restReads⟩ <;> simp [receive_event]
  refine ⟨h1, ?_⟩
  intro hmem
  rcases hq : conn.eventQueue with _ | ⟨ev, rest⟩
  · rfl
  · rw [h1 ev rest hq] at hmem
    simp at hmem

/-- Witness for C8: a buffered end-of-message is yielded with no read. -/
theorem c8_receive_witness :
    receive_event ⟨.done, .sendBody, [H11Event.endOfMessage]⟩ [] =
      ⟨.ok H11Event.endOfMessage, ⟨.done, .done, []⟩, [], []⟩ :=
  (c8_receive_no_read_when_ready
      ⟨.done, .sendBody, [H11Event.endOfMessage]⟩ []).1
    H11Event.endOfMessage [] rfl

/-- C1 (code bug): http11.py line 69 skips at most one informational
response (an `if`, not a loop), then asserts the next event is the final
response. With two interim responses before the final one, `send` fails the
assertion instead of discarding them all; with a single interim response it
yields the final status and headers as intended. -/
theorem c1_informational_if_not_while :
    (send ⟨"GET", "/", [], []⟩ true false ⟨.idle, .idle, []⟩
        [[H11Event.informationalResponse 100 [],
          H11Event.informationalResponse 102 [],
          H11Event.response 200 "OK" [], H11Event.endOfMessage]]).result
      = .error Err.assertionError ∧
    (send ⟨"GET", "/", [], []⟩ true false ⟨.idle, .idle, []⟩
        [[H11Event.informationalResponse 100 [],
          H11Event.response 200 "OK" [], H11Event.endOfMessage]]).result
      = .ok ⟨200, "OK", "HTTP/1.1", [], none⟩ := by
  decide

/-- C5: with the buffered (non-streaming) option, `send` eagerly drains the
entire body and closes the response before returning, and a read error
raised during draining propagates to the caller (after the close); with the
streaming option the response is returned with its body pull deferred and no
further action taken. -/
theorem c5_buffered_drain_close (conn : H11ConnState)
    (reads : List (List H11Event)) (request : Request) (hasRelease : Bool)
    (resp0 : Response) (c2 : H11ConnState) (r2 : List (List H11Event))
    (tr2 : List Action)
    (hhdr : headerPhase request conn reads = ⟨.ok resp0, c2, r2, tr2⟩) :
    (∀ chunks c3 r3 tr3, body_iter c2 r2 = ⟨.ok chunks, c3, r3, tr3⟩ →
      send request false hasRelease conn reads =
        ⟨.ok { resp0 with body := some chunks },
          (response_closed hasRelease c3).1, r3,
          tr2 ++ (tr3 ++ (response_closed hasRelease c3).2)⟩) ∧
    (∀ e c3 r3 tr3, body_iter c2 r2 = ⟨.error e, c3, r3, tr3⟩ →
      send request false hasRelease conn reads =
        ⟨.error e, (response_closed hasRelease c3).1, r3,
          tr2 ++ (tr3 ++ (response_closed hasRelease c3).2)⟩) ∧
    send request true hasRelease conn reads = ⟨.ok resp0, c2, r2, tr2 ++ []⟩ ∧
    resp0.body = none := by
  refine ⟨?_, ?_, send_streaming _ _ _ _ _ _ _ _ hhdr, ?_⟩
  · intro chunks c3 r3 tr3 hbody
    exact send_buffered_ok _ _ _ _ _ _ _ _ _ _ _ _ hhdr hbody
  · intro e c3 r3 tr3 hbody
    exact send_buffered_error _ _ _ _ _ _ _ _ _ _ _ _ hhdr hbody
  · exact headerPhase_body_none request conn reads resp0 (by rw [hhdr])

/-- Witness for C5: a buffered 200 response with a 5-byte body is fully
drained, the connection cycles back to idle/idle, and the release hook fires
before `send` returns. -/
theorem c5_buffered_drain_close_witness :
    send ⟨"GET", "/", [], []⟩ false true ⟨.idle, .idle, []⟩
        [[H11Event.response 200 "OK" [("Content-Length", "5")],
          H11Event.data [104, 101, 108, 108, 111], H11Event.endOfMessage]]
      = ⟨.ok ⟨200, "OK", "HTTP/1.1", [("Content-Length", "5")],
            some [[104, 101, 108, 108, 111]]⟩,
          (response_closed true ⟨.done, .done, []⟩).1, [],
          [Action.wireWrite (.request "GET" "/" []),
            Action.wireWrite .endOfMessage, Action.read]
            ++ ([] ++ (response_closed true ⟨.done, .done, []⟩).2)⟩ :=
  (c5_buffered_drain_close ⟨.idle, .idle, []⟩
      [[H11Event.response 200 "OK" [("Content-Length", "5")],
        H11Event.data [104, 101, 108, 108, 111], H11Event.endOfMessage]]
      ⟨"GET", "/", [], []⟩ true
      ⟨200, "OK", "HTTP/1.1", [("Content-Length", "5")], none⟩
      ⟨.done, .sendBody,
        [H11Event.data [104, 101, 108, 108, 111], H11Event.endOfMessage]⟩ []
      [Action.wireWrite (.request "GET" "/" []),
        Action.wireWrite .endOfMessage, Action.read]
      (by decide)).1
    [[104, 101, 108, 108, 111]] ⟨.done, .done, []⟩ [] [] (by decide)

/-- C10: with the buffered option, even when draining the body fails, the
response is still closed first — the reuse-or-close decision runs and the
release hook fires exactly once, after it — and only then does the error
propagate to the caller. -/
theorem c10_error_still_closes_releases (conn : H11ConnState)
    (reads : List (List H11Event)) (request : Request) (resp0 : Response)
    (c2 : H11ConnState) (r2 : List (List H11Event)) (tr2 : List Action)
    (e : Err) (c3 : H11ConnState) (r3 : List (List H11Event))
    (tr3 : List Action)
    (hhdr : headerPhase request conn reads = ⟨.ok resp0, c2, r2, tr2⟩)
    (hbody : body_iter c2 r2 = ⟨.error e, c3, r3, tr3⟩) :
    (send request false true conn reads).result = .error e ∧
    (send request false true conn reads).conn = (response_closed true c3).1 ∧
    ∃ pre, (send request false true conn reads).trace =
        pre ++ [Action.releaseHook] ∧ Action.releaseHook ∉ pre := by
  have hs := send_buffered_error request true conn reads resp0 c2 r2 tr2
    e c3 r3 tr3 hhdr hbody
  obtain ⟨d, hd, hnd⟩ := response_closed_hook c3
  have h2 : Action.releaseHook ∉ tr2 := by
    have hn := headerPhase_noHook request conn reads
    rw [hhdr] at hn
    exact hn
  have h3 : Action.releaseHook ∉ tr3 := by
    have hn := body_iter_noHook c2 r2
    rw [hbody] at hn
    exact hn
  refine ⟨by rw [hs], by rw [hs], tr2 ++ (tr3 ++ d), ?_, ?_⟩
  · rw [hs]
    simp [hd]
  · simp [List.mem_append, h2, h3, hnd]

/-- Witness for C10: a body truncated by the peer makes the drain fail with
a read timeout, yet the connection is closed and the release hook fires
exactly once, last, before the caller sees the error. -/
theorem c10_error_still_closes_releases_witness :
    (send ⟨"GET", "/", [], []⟩ false true ⟨.idle, .idle, []⟩
        [[H11Event.response 200 "OK" [], H11Event.data [104]]]).result
      = .error Err.readTimeout ∧
    (send ⟨"GET", "/", [], []⟩ false true ⟨.idle, .idle, []⟩
        [[H11Event.response 200 "OK" [], H11Event.data [104]]]).conn
      = (response_closed true ⟨.done, .sendBody, []⟩).1 ∧
    ∃ pre, (send ⟨"GET", "/", [], []⟩ false true ⟨.idle, .idle, []⟩
        [[H11Event.response 200 "OK" [], H11Event.data [104]]]).trace
      = pre ++ [Action.releaseHook] ∧ Action.releaseHook ∉ pre :=
  c10_error_still_closes_releases ⟨.idle, .idle, []⟩
    [[H11Event.response 200 "OK" [], H11Event.data [104]]]
    ⟨"GET", "/", [], []⟩ ⟨200, "OK", "HTTP/1.1", [], none⟩
    ⟨.done, .sendBody, [H11Event.data [104]]⟩ []
    [Action.wireWrite (.request "GET" "/" []),
      Action.wireWrite .endOfMessage, Action.read]
    Err.readTimeout ⟨.done, .sendBody, []⟩ [] []
    (by decide) (by decide)

end HTTP11Connection

/-! Claim theorems about the connection facade. -/

/-- C2 counterexample: on an unconnected facade (no driver bound),
`is_closed` does not return true — it fails the internal assertion. -/
theorem c2_unconnected_counterexample :
    ¬ (HTTPConnection.is_closed ⟨"http://example.com", false, none, none⟩
        = .ok true) ∧
    HTTPConnection.is_closed ⟨"http://example.com", false, none, none⟩
      = .error Err.assertionError := by
  decide

/-- C2 (amended): on an unconnected facade, `is_closed` fails its internal
assertion rather than returning true; once a driver is bound it returns the
bound driver's terminal-state check (the HTTP/2 driver checked first). -/
theorem c2_is_closed_delegation (c : HTTPConnection) :
    (c.h2_connection = none → c.h11_connection = none →
      HTTPConnection.is_closed c = .error Err.assertionError) ∧
    (∀ st, c.h2_connection = none → c.h11_connection = some st →
      HTTPConnection.is_closed c = .ok (HTTP11Connection.is_closed st)) ∧
    (∀ h2c, c.h2_connection = some h2c →
      HTTPConnection.is_closed c = .ok h2c.is_closed) := by
  refine ⟨?_, ?_, ?_⟩
  · intro h2 h11
    simp [HTTPConnection.is_closed, h2, h11]
  · intro st h2 h11
    simp [HTTPConnection.is_closed, h2, h11]
  · intro h2c h2
    simp [HTTPConnection.is_closed, h2]

/-- Witness for C2: a bound HTTP/1.1 driver's terminal-state check and a
bound HTTP/2 driver's closed flag are what the facade reports. -/
theorem c2_is_closed_delegation_witness :
    HTTPConnection.is_closed
        ⟨"http://example.com", false, some ⟨.closed, .idle, []⟩, none⟩
      = .ok (HTTP11Connection.is_closed ⟨.closed, .idle, []⟩) ∧
    HTTPConnection.is_closed ⟨"http://example.com", false, none, some ⟨true⟩⟩
      = .ok (⟨true⟩ : H2ConnState).is_closed :=
  ⟨(c2_is_closed_delegation _).2.1 ⟨.closed, .idle, []⟩ rfl rfl,
    (c2_is_closed_delegation _).2.2 ⟨true⟩ rfl⟩

/-- C9: on an unconnected facade, `close()` is a no-op leaving all facade
state unchanged and taking no action; once a driver is bound, `close()` only
delegates to that bound driver. -/
theorem c9_facade_close_delegation (c : HTTPConnection) :
    (c.h2_connection = none → c.h11_connection = none →
      HTTPConnection.close c = (c, [])) ∧
    (∀ st, c.h2_connection = none → c.h11_connection = some st →
      HTTPConnection.close c =
        ({ c with h11_connection := some (HTTP11Connection.close st).1 },
          (HTTP11Connection.close st).2)) ∧
    (∀ h2c, c.h2_connection = some h2c →
      HTTPConnection.close c =
        ({ c with h2_connection := some (HTTP2Connection.close h2c).1 },
          (HTTP2Connection.close h2c).2)) := by
  refine ⟨?_, ?_, ?_⟩
  · intro h2 h11
    simp [HTTPConnection.close, h2, h11]
  · intro st h2 h11
    simp [HTTPConnection.close, h2, h11]
  · intro h2c h2
    simp [HTTPConnection.close, h2]

/-- Witness for C9: an unconnected facade is untouched by close; a facade
bound to an HTTP/1.1 driver delegates close to it. -/
theorem c9_facade_close_witness :
    HTTPConnection.close ⟨"http://example.com", false, none, none⟩
      = (⟨"http://example.com", false, none, none⟩, []) ∧
    HTTPConnection.close
        ⟨"http://example.com", true, some ⟨.done, .done, []⟩, none⟩
      = (⟨"http://example.com", true,
          some (HTTP11Connection.close ⟨.done, .done, []⟩).1, none⟩,
        (HTTP11Connection.close ⟨.done, .done, []⟩).2) :=
  ⟨(c9_facade_close_delegation _).1 rfl rfl,
    (c9_facade_close_delegation _).2.1 ⟨.done, .done, []⟩ rfl rfl⟩

end Httpcore
